import Mathlib

/-
  Verification of the sludge scripting-language interpreter
  (src/interpreter/mod.rs, src/interpreter/value.rs,
   src/interpreter/variable_scope.rs, src/interpreter/builtins/*).

  The evaluator is embedded shallowly: the interpreter's shared mutable
  structures (Rc<RefCell<...>> lists/sets/dictionaries, the scope chain,
  and the print sink) become an explicit `State` record threaded through
  evaluation, and the host's unbounded recursion becomes a fuel
  parameter: with enough fuel the Lean functions compute exactly what
  the Rust functions compute.
-/

namespace Sludge

/-- Binary operators, mirroring `BinOp` in the AST (src/ast). -/
inductive BinOp where
  | add | sub | mul | div | mod | pow
  | eq | ne | lt | le | gt | ge
  | logAnd | logOr
deriving DecidableEq, Repr

/-- Unary operators, mirroring `UnOp` in the AST. -/
inductive UnOp where
  | neg | lnot
deriving DecidableEq, Repr

mutual

/-- Expressions, mirroring the `Expr` enum consumed by
`Interpreter::eval_expr` (variants: Number, String, Boolean, Identifier,
Tuple, Member, BinaryOp, UnaryOp, Call, Function, Block).  The single
`AssignTarget::Identifier` wrapper around parameter names is collapsed
to `String`. -/
inductive Expr where
  | number (n : Int)
  | strLit (s : String)
  | boolean (b : Bool)
  | identifier (name : String)
  | tuple (values : List Expr)
  | member (target : Expr) (field : String)
  | binaryOp (op : BinOp) (left : Expr) (right : Expr)
  | unaryOp (op : UnOp) (operand : Expr)
  | call (target : Expr) (args : List Expr)
  | fnLit (arguments : List String) (statement : Expr)
  | block (stmts : List Stmt)

/-- Statements, mirroring the `Statement` enum consumed by
`Interpreter::execute_statement`.  `AssignOp` has the single variant
`Assign` and is dropped. -/
inductive Stmt where
  | print (exprs : List Expr)
  | assignment (target : String) (value : Expr)
  | declaration (target : String) (value : Expr)
  | ifStmt (condition : Expr) (thenStmt : Expr) (elseStmt : Option Expr)
  | whileStmt (condition : Expr) (body : Expr)
  | forStmt (init : Option Stmt) (condition : Option Expr)
            (update : Option Stmt) (body : Expr)
  | retStmt (e : Expr)
  | expression (e : Expr)

end

/-- Tags identifying the native operation carried by a
`Value::BuiltinFn`; each tag corresponds to one Rust function pointer
installed by `VariableScope::new` or by member access in
`Interpreter::eval_expr`. -/
inductive BuiltinTag where
  | listNew | dictNew | setNew
  | listJoin | listLength | listAt | listPop | listPush
  | listMap | listFilter | listAll | listAny | listSum
  | setHas | setUnion | setIntersection | setDifference
  | setAdd | setRemove | setLength
  | dictGet | dictSet | dictRemove | dictItems | dictKeys
  | dictValues | dictLength
deriving DecidableEq, Repr

/-- The `Hashable` subset of values (src/interpreter/value.rs):
the only values usable as set members or dictionary keys. -/
inductive Hashable where
  | null
  | int32 (n : Int)
  | boolean (b : Bool)
  | str (s : String)
deriving DecidableEq, Repr

/-- Runtime values, mirroring `Value` in src/interpreter/value.rs.
Reference-like values (list, set, dictionary) hold an index into the
corresponding heap of the `State`; a function value holds the index of
its captured scope frame; `ret` is the `Value::Return` control-flow
marker.  A builtin value records its operation tag together with the
bound receiver (`this`). -/
inductive Value where
  | null
  | int32 (n : Int)
  | boolean (b : Bool)
  | str (s : String)
  | fnVal (arguments : List String) (statement : Expr) (scope : Nat)
  | list (ref : Nat)
  | dictionary (ref : Nat)
  | tuple (values : List Value)
  | setV (ref : Nat)
  | ret (value : Value)
  | builtinFn (tag : BuiltinTag) (this : Value)

/-- One scope frame (`VariableScope`): local bindings plus an optional
parent frame index. -/
structure Frame where
  vars : List (String × Value)
  parent : Option Nat

/-- The interpreter's mutable world: the arena of scope frames, the
heaps backing list/set/dictionary values, and the lines written to the
print sink. -/
structure State where
  frames : List Frame
  lists : List (List Value)
  sets : List (List Hashable)
  dicts : List (List (Hashable × Value))
  output : List String

/-- Result of evaluating an expression or executing a statement:
`anyhow::Result<Value>` with the mutated state made explicit.  An error
carries the state at the moment the error arose (mutations made before
the failure persist, as they do through the host's shared references).
`timeout` arises only when the fuel bound on recursion depth is
exhausted; the host has no such bound. -/
inductive Res where
  | ok (v : Value) (s : State)
  | err (msg : String) (s : State)
  | timeout

/-- Result of evaluating a list of expressions left to right
(`collect::<Result<Vec<_>,_>>()`). -/
inductive ResL where
  | ok (vs : List Value) (s : State)
  | err (msg : String) (s : State)
  | timeout

/-- Type names as printed by `Interpreter::type_name`. -/
def typeName : Value → String
  | .null => "null"
  | .boolean _ => "boolean"
  | .int32 _ => "int"
  | .str _ => "string"
  | .tuple _ => "tuple"
  | .list _ => "list"
  | .setV _ => "set"
  | .dictionary _ => "dict"
  | .fnVal _ _ _ => "function"
  | .builtinFn _ _ => "builtin"
  | .ret _ => "return"

/-- Abbreviated stand-in for the host's derived `Debug` rendering of a
value (used only inside error messages produced with `{:?}`); no
theorem depends on these texts. -/
def debugValue : Value → String
  | .null => "Null"
  | .int32 n => "Int32(" ++ toString n ++ ")"
  | .boolean b => "Boolean(" ++ toString b ++ ")"
  | .str s => "String(" ++ s ++ ")"
  | .fnVal _ _ _ => "Function"
  | .list _ => "List"
  | .dictionary _ => "Dictionary"
  | .tuple _ => "Tuple"
  | .setV _ => "Set"
  | .ret _ => "Return"
  | .builtinFn _ _ => "Builtin"

/-- Display of a `Hashable` (value.rs `impl Display for Hashable`). -/
def displayHashable : Hashable → String
  | .null => "NULL"
  | .int32 n => toString n
  | .boolean b => toString b
  | .str s => s

/-- Comma-separated join, as produced by `Vec::join(", ")`. -/
def joinSep (sep : String) : List String → String
  | [] => ""
  | [x] => x
  | x :: xs => x ++ sep ++ joinSep sep xs

mutual

/-- Display of a value (value.rs `impl Display for Value`): scalars as
their literal, `NULL` for null, recursive `list(...)`, `dict((k, v),
...)`, `set(...)`, `tuple(...)` for compounds, the empty string for
function/builtin/return values.  The fuel bounds recursion through heap
references; the host recurses unboundedly. -/
def displayValue : Nat → State → Value → String
  | _, _, .null => "NULL"
  | _, _, .int32 n => toString n
  | _, _, .boolean b => toString b
  | _, _, .str s => s
  | fuel + 1, st, .list ref =>
      "list(" ++ joinSep ", " (displayValues fuel st (st.lists.getD ref [])) ++ ")"
  | 0, _, .list _ => "list"
  | fuel + 1, st, .dictionary ref =>
      "dict(" ++ joinSep ", " (displayPairs fuel st (st.dicts.getD ref [])) ++ ")"
  | 0, _, .dictionary _ => "dict"
  | _, st, .setV ref =>
      "set(" ++ joinSep ", " ((st.sets.getD ref []).map displayHashable) ++ ")"
  | fuel + 1, st, .tuple vs =>
      "tuple(" ++ joinSep ", " (displayValues fuel st vs) ++ ")"
  | 0, _, .tuple _ => "tuple"
  | _, _, .fnVal _ _ _ => ""
  | _, _, .ret _ => ""
  | _, _, .builtinFn _ _ => ""

termination_by structural fuel _ _ => fuel

/-- Display a list of values elementwise. -/
def displayValues : Nat → State → List Value → List String
  | 0, _, _ => []
  | _ + 1, _, [] => []
  | fuel + 1, st, v :: vs => displayValue fuel st v :: displayValues fuel st vs

termination_by structural fuel _ _ => fuel

/-- Display the (key, value) entries of a dictionary. -/
def displayPairs : Nat → State → List (Hashable × Value) → List String
  | 0, _, _ => []
  | _ + 1, _, [] => []
  | fuel + 1, st, kv :: kvs =>
      ("(" ++ displayHashable kv.1 ++ ", " ++ displayValue fuel st kv.2 ++ ")")
        :: displayPairs fuel st kvs

termination_by structural fuel _ _ => fuel

end

/-- Default display fuel used when a display string is embedded in a
result; large enough for every value arising in the theorems below. -/
def displayFuelDef : Nat := 32

/-- Equality on values (value.rs `impl PartialEq for Value`):
defined pairwise on Null/int/bool/string, `false` for every other pair,
including a compound value compared with itself. -/
def valueEq : Value → Value → Bool
  | .null, .null => true
  | .int32 a, .int32 b => a == b
  | .boolean a, .boolean b => a == b
  | .str a, .str b => a == b
  | _, _ => false

/-- Rust `Ord::cmp` on `i32`: trichotomy. -/
def intCmp (a b : Int) : Ordering :=
  if a < b then .lt else if a = b then .eq else .gt

/-- Rust `Ord::cmp` on `bool`: false sorts before true. -/
def boolCmp (a b : Bool) : Ordering :=
  match a, b with
  | false, true => .lt
  | true, false => .gt
  | _, _ => .eq

/-- Rust `Ord::cmp` on `String`: lexicographic (byte order on UTF-8
coincides with code-point order). -/
def strCmp (a b : String) : Ordering :=
  if a < b then .lt else if a = b then .eq else .gt

/-- Partial comparison (value.rs `impl PartialOrd for Value`,
`partial_cmp`): `some` of the natural ordering for int/int, bool/bool,
string/string, `none` for every other pair. -/
def valueCmpOpt : Value → Value → Option Ordering
  | .int32 a, .int32 b => some (intCmp a b)
  | .boolean a, .boolean b => some (boolCmp a b)
  | .str a, .str b => some (strCmp a b)
  | _, _ => none

/-- Rust `PartialOrd::lt`: true iff `partial_cmp` yields `Less`. -/
def valueLt (a b : Value) : Bool :=
  match valueCmpOpt a b with
  | some .lt => true
  | _ => false

/-- Rust `PartialOrd::le`: true iff `partial_cmp` yields `Less` or `Equal`. -/
def valueLe (a b : Value) : Bool :=
  match valueCmpOpt a b with
  | some .lt => true
  | some .eq => true
  | _ => false

/-- Rust `PartialOrd::gt`: true iff `partial_cmp` yields `Greater`. -/
def valueGt (a b : Value) : Bool :=
  match valueCmpOpt a b with
  | some .gt => true
  | _ => false

/-- Rust `PartialOrd::ge`: true iff `partial_cmp` yields `Greater` or `Equal`. -/
def valueGe (a b : Value) : Bool :=
  match valueCmpOpt a b with
  | some .gt => true
  | some .eq => true
  | _ => false

/-- Whether the two operands are of the same scalar type (int/int,
bool/bool, string/string) — exactly the pairs `partial_cmp` orders. -/
def sameScalarType : Value → Value → Bool
  | .int32 _, .int32 _ => true
  | .boolean _, .boolean _ => true
  | .str _, .str _ => true
  | _, _ => false

/-- Reduce an integer to the i32 range (two's-complement wrap-around). -/
def wrap32 (n : Int) : Int := (n + 2 ^ 31) % 2 ^ 32 - 2 ^ 31

/-- `Value::to_bool` (value.rs): a strict boolean check — only a
boolean operand succeeds; anything else is a type error (the host
message interpolates the Display of the value). -/
def toBool (st : State) : Value → Except String Bool
  | .boolean b => .ok b
  | v => .error ("Expcted boolean got: " ++ displayValue displayFuelDef st v)

/-- `impl Add for Value`: int+int sum, string+string concatenation,
type error otherwise. -/
def valueAdd : Value → Value → Except String Value
  | .int32 a, .int32 b => .ok (.int32 (wrap32 (a + b)))
  | .str a, .str b => .ok (.str (a ++ b))
  | a, b => .error ("Addition not supported between " ++ debugValue a ++ " and " ++ debugValue b)

/-- `impl Sub for Value`: int-only. -/
def valueSub : Value → Value → Except String Value
  | .int32 a, .int32 b => .ok (.int32 (wrap32 (a - b)))
  | a, b => .error ("Subtraction not supported between " ++ debugValue a ++ " and " ++ debugValue b)

/-- `impl Mul for Value`: int-only. -/
def valueMul : Value → Value → Except String Value
  | .int32 a, .int32 b => .ok (.int32 (wrap32 (a * b)))
  | a, b => .error ("Multiplication not supported between " ++ debugValue a ++ " and " ++ debugValue b)

/-- `impl Div for Value`: int-only, zero right-hand side is an error;
the quotient truncates toward zero as the host's `i32` division does. -/
def valueDiv : Value → Value → Except String Value
  | .int32 _, .int32 0 => .error "Division by zero"
  | .int32 a, .int32 b => .ok (.int32 (Int.tdiv a b))
  | a, b => .error ("Division not supported between " ++ debugValue a ++ " and " ++ debugValue b)

/-- `impl Rem for Value`: int-only, zero right-hand side is an error;
the remainder takes the dividend's sign as the host's `i32` `%` does. -/
def valueRem : Value → Value → Except String Value
  | .int32 _, .int32 0 => .error "Modulo by zero"
  | .int32 a, .int32 b => .ok (.int32 (Int.tmod a b))
  | a, b => .error ("Modulo not supported between " ++ debugValue a ++ " and " ++ debugValue b)

/-- `Value::pow`: int-only, negative exponent is an error. -/
def valuePow : Value → Value → Except String Value
  | .int32 a, .int32 b =>
      if b < 0 then .error "Negative exponents not supported for Int32"
      else .ok (.int32 (wrap32 (a ^ b.toNat)))
  | a, b => .error ("Cannot exponentiate " ++ debugValue a ++ " by " ++ debugValue b)

/-- `impl Neg for Value`: int-only. -/
def valueNeg : Value → Except String Value
  | .int32 a => .ok (.int32 (wrap32 (-a)))
  | a => .error ("Negation not supported for " ++ debugValue a)

/-- `Interpreter::eval_binary_op` (mod.rs lines 49-67): arithmetic
delegates to the value operators; `==`/`!=` wrap `PartialEq`; the four
ordering operators wrap the `PartialOrd`-derived `lt/le/gt/ge` (and so
never fail); `&&`/`||` here is the strict non-short-circuit fallback
(unreachable from `eval_expr`, which routes logical operators to
`eval_logical_op`). -/
def evalBinaryOp (st : State) (op : BinOp) (l r : Value) : Except String Value :=
  match op with
  | .add => valueAdd l r
  | .sub => valueSub l r
  | .mul => valueMul l r
  | .div => valueDiv l r
  | .mod => valueRem l r
  | .pow => valuePow l r
  | .eq => .ok (.boolean (valueEq l r))
  | .ne => .ok (.boolean (!valueEq l r))
  | .lt => .ok (.boolean (valueLt l r))
  | .le => .ok (.boolean (valueLe l r))
  | .gt => .ok (.boolean (valueGt l r))
  | .ge => .ok (.boolean (valueGe l r))
  | .logAnd => do
      let a ← toBool st l
      let b ← toBool st r
      .ok (.boolean (a && b))
  | .logOr => do
      let a ← toBool st l
      let b ← toBool st r
      .ok (.boolean (a || b))

/-- `Interpreter::eval_unary_op`. -/
def evalUnaryOp (st : State) (op : UnOp) (v : Value) : Except String Value :=
  match op with
  | .neg => valueNeg v
  | .lnot => do
      let b ← toBool st v
      .ok (.boolean (!b))

/-- `Hashable::try_from(Value)`: scalars convert, compounds fail with
"invalid key". -/
def toHashable : Value → Except String Hashable
  | .null => .ok .null
  | .int32 n => .ok (.int32 n)
  | .boolean b => .ok (.boolean b)
  | .str s => .ok (.str s)
  | _ => .error "invalid key"

/-- Whether a value lies in the `Hashable` subset. -/
def isHashableVal : Value → Bool
  | .null => true
  | .int32 _ => true
  | .boolean _ => true
  | .str _ => true
  | _ => false

/-- `Hashable::as_value`. -/
def hashableAsValue : Hashable → Value
  | .null => .null
  | .int32 n => .int32 n
  | .boolean b => .boolean b
  | .str s => .str s

/-- Look a name up in one frame's local bindings (the frame's HashMap,
modelled as an association list). -/
def frameLookup (name : String) : List (String × Value) → Option Value
  | [] => none
  | (k, v) :: rest => if k == name then some v else frameLookup name rest

/-- Replace a binding in one frame's local bindings (HashMap::insert on
a present key). -/
def frameReplace (name : String) (v : Value) : List (String × Value) → List (String × Value)
  | [] => []
  | (k, w) :: rest =>
      if k == name then (k, v) :: rest else (k, w) :: frameReplace name v rest

/-- Insert-or-replace a binding in one frame (HashMap::insert). -/
def frameInsert (name : String) (v : Value) (vars : List (String × Value)) :
    List (String × Value) :=
  match frameLookup name vars with
  | some _ => frameReplace name v vars
  | none => vars ++ [(name, v)]

/-- The empty frame used as the out-of-range default; a well-formed
state never indexes outside `frames`. -/
def emptyFrame : Frame := ⟨[], none⟩

/-- `VariableScope::get`: search the frame, then walk parents outward.
The fuel bounds the parent walk; in any state the host can build, a
frame's parent was allocated before it, so a fuel of `frames.length + 1`
always suffices. -/
def scopeGetAux : Nat → List Frame → Nat → String → Option Value
  | 0, _, _, _ => none
  | fuel + 1, frames, i, name =>
      let fr := frames.getD i emptyFrame
      match frameLookup name fr.vars with
      | some v => some v
      | none =>
          match fr.parent with
          | some p => scopeGetAux fuel frames p name
          | none => none

/-- `VariableScope::get` on a state, starting from frame `i`. -/
def scopeGet (st : State) (i : Nat) (name : String) : Option Value :=
  scopeGetAux (st.frames.length + 1) st.frames i name

/-- `VariableScope::declare`: unconditionally write into frame `i`. -/
def scopeDeclare (st : State) (i : Nat) (name : String) (v : Value) : State :=
  let fr := st.frames.getD i emptyFrame
  { st with frames := st.frames.set i { fr with vars := frameInsert name v fr.vars } }

/-- `VariableScope::set`: overwrite the nearest existing binding,
walking parents outward; `none` when no frame in the chain has the name
(the host returns the previous value, of which callers only test
presence). -/
def scopeSetAux : Nat → State → Nat → String → Value → Option State
  | 0, _, _, _, _ => none
  | fuel + 1, st, i, name, v =>
      let fr := st.frames.getD i emptyFrame
      match frameLookup name fr.vars with
      | some _ => some (scopeDeclare st i name v)
      | none =>
          match fr.parent with
          | some p => scopeSetAux fuel st p name v
          | none => none

/-- `VariableScope::set` on a state, starting from frame `i`. -/
def scopeSet (st : State) (i : Nat) (name : String) (v : Value) : Option State :=
  scopeSetAux (st.frames.length + 1) st i name v

/-- `VariableScope::branch`: allocate a fresh empty frame referencing
`parent`; returns the new frame's index with the grown state. -/
def scopeBranch (st : State) (parent : Nat) : Nat × State :=
  (st.frames.length, { st with frames := st.frames ++ [⟨[], some parent⟩] })

/-- Bind parameters positionally into the callee frame
(`for (param, value) in arguments.iter().zip(evaluated_args)`). -/
def declareAll (st : State) (i : Nat) : List String → List Value → State
  | [], _ => st
  | _, [] => st
  | p :: ps, v :: vs => declareAll (scopeDeclare st i p v) i ps vs

/-- `VariableScope::new`: the root scope pre-populated with the
`list`, `dict` and `set` constructors. -/
def initState : State :=
  { frames := [⟨[("list", .builtinFn .listNew .null),
                 ("dict", .builtinFn .dictNew .null),
                 ("set", .builtinFn .setNew .null)], none⟩],
    lists := [], sets := [], dicts := [], output := [] }

/-- Member access dispatch (`Interpreter::eval_expr`, `Expr::Member`):
a type-directed capability lookup producing a builtin value bound to
the receiver, or an unknown-member / unsupported-type error.  (For the
callback-carrying builtins the host additionally snapshots an
interpreter handle whose scratch scope is never consulted for variable
resolution; only its shared print sink is used, which this model keeps
in `State`.) -/
def evalMemberVal (target : Value) (field : String) : Except String Value :=
  match target with
  | .list ref =>
      match field with
      | "join" => .ok (.builtinFn .listJoin (.list ref))
      | "length" => .ok (.builtinFn .listLength (.list ref))
      | "at" => .ok (.builtinFn .listAt (.list ref))
      | "pop" => .ok (.builtinFn .listPop (.list ref))
      | "push" => .ok (.builtinFn .listPush (.list ref))
      | "map" => .ok (.builtinFn .listMap (.list ref))
      | "filter" => .ok (.builtinFn .listFilter (.list ref))
      | "all" => .ok (.builtinFn .listAll (.list ref))
      | "any" => .ok (.builtinFn .listAny (.list ref))
      | "sum" => .ok (.builtinFn .listSum (.list ref))
      | other => .error ("unknown member " ++ other ++ " on type list")
  | .setV ref =>
      match field with
      | "has" => .ok (.builtinFn .setHas (.setV ref))
      | "union" => .ok (.builtinFn .setUnion (.setV ref))
      | "intersection" => .ok (.builtinFn .setIntersection (.setV ref))
      | "difference" => .ok (.builtinFn .setDifference (.setV ref))
      | "add" => .ok (.builtinFn .setAdd (.setV ref))
      | "remove" => .ok (.builtinFn .setRemove (.setV ref))
      | "length" => .ok (.builtinFn .setLength (.setV ref))
      | other => .error ("unknown member " ++ other ++ " on type set")
  | .dictionary ref =>
      match field with
      | "get" => .ok (.builtinFn .dictGet (.dictionary ref))
      | "set" => .ok (.builtinFn .dictSet (.dictionary ref))
      | "remove" => .ok (.builtinFn .dictRemove (.dictionary ref))
      | "items" => .ok (.builtinFn .dictItems (.dictionary ref))
      | "keys" => .ok (.builtinFn .dictKeys (.dictionary ref))
      | "values" => .ok (.builtinFn .dictValues (.dictionary ref))
      | "length" => .ok (.builtinFn .dictLength (.dictionary ref))
      | other => .error ("unknown member " ++ other ++ " on type dict")
  | other =>
      .error ("member access not supported: type " ++ typeName other ++ " has no members")

/-- Allocate a fresh list cell. -/
def allocList (st : State) (vs : List Value) : Nat × State :=
  (st.lists.length, { st with lists := st.lists ++ [vs] })

/-- Allocate a fresh set cell. -/
def allocSet (st : State) (hs : List Hashable) : Nat × State :=
  (st.sets.length, { st with sets := st.sets ++ [hs] })

/-- Allocate a fresh dictionary cell. -/
def allocDict (st : State) (kvs : List (Hashable × Value)) : Nat × State :=
  (st.dicts.length, { st with dicts := st.dicts ++ [kvs] })

/-- Overwrite a list cell in place. -/
def storeList (st : State) (ref : Nat) (vs : List Value) : State :=
  { st with lists := st.lists.set ref vs }

/-- Overwrite a set cell in place. -/
def storeSet (st : State) (ref : Nat) (hs : List Hashable) : State :=
  { st with sets := st.sets.set ref hs }

/-- Overwrite a dictionary cell in place. -/
def storeDict (st : State) (ref : Nat) (kvs : List (Hashable × Value)) : State :=
  { st with dicts := st.dicts.set ref kvs }

/-- `HashSet::insert`: no effect when the element is present. -/
def hsetInsert (h : Hashable) (l : List Hashable) : List Hashable :=
  if l.contains h then l else l ++ [h]

/-- `HashSet::remove`. -/
def hsetRemove (h : Hashable) (l : List Hashable) : List Hashable :=
  l.filter (fun x => x ≠ h)

/-- `HashMap::insert`: replace the value of a present key, append an
absent one (key order is irrelevant to the semantics). -/
def hmapInsert (k : Hashable) (v : Value) : List (Hashable × Value) → List (Hashable × Value)
  | [] => [(k, v)]
  | (k', v') :: rest =>
      if k' == k then (k', v) :: rest else (k', v') :: hmapInsert k v rest

/-- `HashMap::get`. -/
def hmapGet (k : Hashable) : List (Hashable × Value) → Option Value
  | [] => none
  | (k', v) :: rest => if k' == k then some v else hmapGet k rest

/-- `HashMap::remove`, returning the removed value when present. -/
def hmapRemove (k : Hashable) : List (Hashable × Value) → Option Value × List (Hashable × Value)
  | [] => (none, [])
  | (k', v) :: rest =>
      if k' == k then (some v, rest)
      else
        let (r, rest') := hmapRemove k rest
        (r, (k', v) :: rest')

/-- `expect_list` (builtins/list.rs): the receiver must be a list. -/
def expectList (st : State) (this : Value) (fname : String) : Except String Nat :=
  match this with
  | .list ref => .ok ref
  | other =>
      .error (fname ++ ": receiver is not a list (got " ++ displayValue displayFuelDef st other ++ ")")

/-- `expect_n_args_at_least` (builtins/list.rs). -/
def expectNArgsAtLeast (args : List Value) (n : Nat) (fname : String) : Except String Unit :=
  if args.length < n then
    .error (fname ++ ": expected at least " ++ toString n ++ " argument(s), got "
            ++ toString args.length)
  else .ok ()

/-- `expect_index` (builtins/list.rs): the argument at `idx` must be a
non-negative integer. -/
def expectIndex (st : State) (args : List Value) (idx : Nat) (fname : String) :
    Except String Nat :=
  match args.get? idx with
  | none => .error (fname ++ ": missing index argument at position " ++ toString idx)
  | some (.int32 i) =>
      if 0 ≤ i then .ok i.toNat
      else .error (fname ++ ": index must be non-negative, got " ++ toString i)
  | some other =>
      .error (fname ++ ": index must be Int32, got " ++ displayValue displayFuelDef st other)

/-- `expect_callable` (builtins/list.rs): only the FIRST argument is
inspected and it must be a function value; further arguments are never
looked at. -/
def expectCallable (st : State) (args : List Value) (fname : String) :
    Except String (List String × Expr × Nat) :=
  match args with
  | .fnVal arguments statement scope :: _ => .ok (arguments, statement, scope)
  | other :: _ =>
      .error (fname ++ ": first argument must be a function, got "
              ++ displayValue displayFuelDef st other)
  | [] => .error (fname ++ ": missing function argument")

/-- `expect_return` (builtins/list.rs): a callback's result must be a
return-signal, whose payload is unwrapped. -/
def expectReturn (st : State) (v : Value) (fname : String) : Except String Value :=
  match v with
  | .ret value => .ok value
  | other =>
      .error (fname ++ ": function must `return` a value (got "
              ++ displayValue displayFuelDef st other ++ ")")

/-- `builtins::list::new`: the variadic `list(...)` constructor. -/
def listNewB (st : State) (args : List Value) : Res :=
  let (ref, st') := allocList st args
  .ok (.list ref) st'

/-- `builtins::list::join`. -/
def listJoinB (st : State) (this : Value) (args : List Value) : Res :=
  match expectNArgsAtLeast args 1 "join" with
  | .error m => .err m st
  | .ok _ =>
    let delimiter :=
      match args.headD .null with
      | .str s => s
      | other => displayValue displayFuelDef st other
    match expectList st this "join" with
    | .error m => .err m st
    | .ok ref =>
        .ok (.str (joinSep delimiter
          ((st.lists.getD ref []).map (displayValue displayFuelDef st)))) st

/-- `builtins::list::pop`: remove and yield the last element; an empty
list is an error. -/
def listPopB (st : State) (this : Value) : Res :=
  match expectList st this "pop" with
  | .error m => .err m st
  | .ok ref =>
      let vs := st.lists.getD ref []
      match vs.getLast? with
      | some v => .ok v (storeList st ref (vs.dropLast))
      | none => .err "pop: cannot pop from an empty list" st

/-- `builtins::list::push`: append ALL call arguments
(`extend_from_slice(args)`), yielding the new length. -/
def listPushB (st : State) (this : Value) (args : List Value) : Res :=
  match expectNArgsAtLeast args 1 "push" with
  | .error m => .err m st
  | .ok _ =>
    match expectList st this "push" with
    | .error m => .err m st
    | .ok ref =>
        let vs := st.lists.getD ref [] ++ args
        .ok (.int32 vs.length) (storeList st ref vs)

/-- `builtins::list::at`. -/
def listAtB (st : State) (this : Value) (args : List Value) : Res :=
  match expectIndex st args 0 "at" with
  | .error m => .err m st
  | .ok idx =>
    match expectList st this "at" with
    | .error m => .err m st
    | .ok ref =>
        let vs := st.lists.getD ref []
        match vs.get? idx with
        | some v => .ok v st
        | none =>
            .err ("at: index " ++ toString idx ++ " out of bounds (len = "
                  ++ toString vs.length ++ ")") st

/-- The accumulator of value.rs `impl Sum for Value`: a failing
addition silently resets the running total, and the next element
restarts it. -/
def listSumFold : Option Value → List Value → Option Value
  | total, [] => total
  | total, v :: rest =>
      listSumFold
        (match total with
         | some t => (valueAdd t v).toOption
         | none => some v) rest

/-- `builtins::list::sum`: fold the elements with `+`; an empty list
sums to Null. -/
def listSumB (st : State) (this : Value) : Res :=
  match expectList st this "sum" with
  | .error m => .err m st
  | .ok ref =>
      match listSumFold none (st.lists.getD ref []) with
      | some t => .ok t st
      | none => .ok .null st

/-- `builtins::list::length`. -/
def listLengthB (st : State) (this : Value) : Res :=
  match expectList st this "length" with
  | .error m => .err m st
  | .ok ref => .ok (.int32 (st.lists.getD ref []).length) st

/-- Convert the constructor arguments of `set(...)` to `Hashable`s,
left to right; the first compound argument aborts with the raw
"invalid key" error (builtins/set.rs `set`, via `collect::<Result<_,_>>`). -/
def collectHashables : List Value → Except String (List Hashable)
  | [] => .ok []
  | v :: rest =>
      match toHashable v with
      | .error e => .error e
      | .ok h =>
          match collectHashables rest with
          | .error e => .error e
          | .ok hs => .ok (h :: hs)

/-- `builtins::set::set`: the variadic `set(...)` constructor;
duplicate Hashable values collapse, a non-Hashable argument fails. -/
def setNewB (st : State) (args : List Value) : Res :=
  match collectHashables args with
  | .error m => .err m st
  | .ok hs =>
      let (ref, st') := allocSet st (hs.foldl (fun acc h => hsetInsert h acc) [])
      .ok (.setV ref) st'

/-- `builtins::set::has`: membership test; a non-set receiver, a
missing argument or a non-Hashable argument all silently yield Null. -/
def setHasB (st : State) (this : Value) (args : List Value) : Res :=
  match this with
  | .setV ref =>
      match args.head? with
      | some target =>
          match toHashable target with
          | .ok h => .ok (.boolean ((st.sets.getD ref []).contains h)) st
          | .error _ => .ok .null st
      | none => .ok .null st
  | _ => .ok .null st

/-- `builtins::set::add`: insert an element; a non-set receiver, a
missing argument or a non-Hashable argument all silently yield Null
WITHOUT an error (only the insertion of a Hashable value mutates the
set). -/
def setAddB (st : State) (this : Value) (args : List Value) : Res :=
  match this with
  | .setV ref =>
      match args.head? with
      | some v =>
          match toHashable v with
          | .ok h => .ok .null (storeSet st ref (hsetInsert h (st.sets.getD ref [])))
          | .error _ => .ok .null st
      | none => .ok .null st
  | _ => .ok .null st

/-- `builtins::set::remove`: same silent-Null discipline as `add`. -/
def setRemoveB (st : State) (this : Value) (args : List Value) : Res :=
  match this with
  | .setV ref =>
      match args.head? with
      | some v =>
          match toHashable v with
          | .ok h => .ok .null (storeSet st ref (hsetRemove h (st.sets.getD ref [])))
          | .error _ => .ok .null st
      | none => .ok .null st
  | _ => .ok .null st

/-- `builtins::set::union`: a fresh set holding both operands'
elements; anything but a set receiver and a set first argument yields
Null. -/
def setUnionB (st : State) (this : Value) (args : List Value) : Res :=
  match this, args.head? with
  | .setV ref, some (.setV oref) =>
      let a := st.sets.getD ref []
      let b := st.sets.getD oref []
      let (nref, st') := allocSet st (a ++ b.filter (fun h => ¬ a.contains h))
      .ok (.setV nref) st'
  | .setV _, _ => .ok .null st
  | _, _ => .ok .null st

/-- `builtins::set::intersection`. -/
def setIntersectionB (st : State) (this : Value) (args : List Value) : Res :=
  match this, args.head? with
  | .setV ref, some (.setV oref) =>
      let a := st.sets.getD ref []
      let b := st.sets.getD oref []
      let (nref, st') := allocSet st (a.filter (fun h => b.contains h))
      .ok (.setV nref) st'
  | .setV _, _ => .ok .null st
  | _, _ => .ok .null st

/-- `builtins::set::difference`. -/
def setDifferenceB (st : State) (this : Value) (args : List Value) : Res :=
  match this, args.head? with
  | .setV ref, some (.setV oref) =>
      let a := st.sets.getD ref []
      let b := st.sets.getD oref []
      let (nref, st') := allocSet st (a.filter (fun h => ¬ b.contains h))
      .ok (.setV nref) st'
  | .setV _, _ => .ok .null st
  | _, _ => .ok .null st

/-- `builtins::set::length`: a non-set receiver yields Null. -/
def setLengthB (st : State) (this : Value) : Res :=
  match this with
  | .setV ref => .ok (.int32 (st.sets.getD ref []).length) st
  | _ => .ok .null st

/-- `expect_dict` (builtins/dict.rs). -/
def expectDict (st : State) (this : Value) (fname : String) : Except String Nat :=
  match this with
  | .dictionary ref => .ok ref
  | other =>
      .error (fname ++ ": receiver is not a dictionary (got "
              ++ displayValue displayFuelDef st other ++ ")")

/-- `expect_n_args` (builtins/dict.rs): an EXACT argument count. -/
def expectNArgs (args : List Value) (n : Nat) (fname : String) : Except String Unit :=
  if args.length ≠ n then
    .error (fname ++ ": expected " ++ toString n ++ " argument(s), got " ++ toString args.length)
  else .ok ()

/-- `expect_hashable_key` (builtins/dict.rs): a non-Hashable key is an
error (the anyhow context names the builtin and the offending value). -/
def expectHashableKey (st : State) (v : Value) (fname : String) : Except String Hashable :=
  match toHashable v with
  | .ok h => .ok h
  | .error e =>
      .error (fname ++ ": key is not hashable (got "
              ++ displayValue displayFuelDef st v ++ "): " ++ e)

/-- `expect_tuple2` (builtins/dict.rs): each `dict` entry must be a
2-tuple. -/
def expectTuple2 (st : State) (v : Value) (fname : String) : Except String (Value × Value) :=
  match v with
  | .tuple [a, b] => .ok (a, b)
  | .tuple vs =>
      .error (fname ++ ": expected Tuple of length 2, got length " ++ toString vs.length)
  | other =>
      .error (fname ++ ": expected Tuple(key, value), got "
              ++ displayValue displayFuelDef st other)

/-- The entry loop of `builtins::dict::dict`: each argument must be a
2-tuple with a Hashable key; entries are inserted left to right. -/
def dictEntries (st : State) (i : Nat) (acc : List (Hashable × Value)) :
    List Value → Except String (List (Hashable × Value))
  | [] => .ok acc
  | arg :: rest =>
      match expectTuple2 st arg "dict" with
      | .error m => .error ("dict: invalid entry at position " ++ toString i ++ ": " ++ m)
      | .ok (k, v) =>
          match expectHashableKey st k "dict" with
          | .error m => .error ("dict: bad key at position " ++ toString i ++ ": " ++ m)
          | .ok key => dictEntries st (i + 1) (hmapInsert key v acc) rest

/-- `builtins::dict::dict`: the variadic `dict(...)` constructor. -/
def dictNewB (st : State) (args : List Value) : Res :=
  match dictEntries st 0 [] args with
  | .error m => .err m st
  | .ok kvs =>
      let (ref, st') := allocDict st kvs
      .ok (.dictionary ref) st'

/-- `builtins::dict::get`: exactly one argument, a Hashable key; an
absent key yields Null. -/
def dictGetB (st : State) (this : Value) (args : List Value) : Res :=
  match expectNArgs args 1 "get" with
  | .error m => .err m st
  | .ok _ =>
    match expectDict st this "get" with
    | .error m => .err m st
    | .ok ref =>
        match expectHashableKey st (args.headD .null) "get" with
        | .error m => .err m st
        | .ok key =>
            match hmapGet key (st.dicts.getD ref []) with
            | some v => .ok v st
            | none => .ok .null st

/-- `builtins::dict::set`: exactly two arguments, a Hashable key and a
value; yields Null. -/
def dictSetB (st : State) (this : Value) (args : List Value) : Res :=
  match expectNArgs args 2 "set" with
  | .error m => .err m st
  | .ok _ =>
    match expectDict st this "set" with
    | .error m => .err m st
    | .ok ref =>
        match expectHashableKey st (args.headD .null) "set" with
        | .error m => .err m st
        | .ok key =>
            .ok .null (storeDict st ref
              (hmapInsert key (args.getD 1 .null) (st.dicts.getD ref [])))

/-- `builtins::dict::remove`: exactly one argument; yields the removed
value, Null when absent. -/
def dictRemoveB (st : State) (this : Value) (args : List Value) : Res :=
  match expectNArgs args 1 "remove" with
  | .error m => .err m st
  | .ok _ =>
    match expectDict st this "remove" with
    | .error m => .err m st
    | .ok ref =>
        match expectHashableKey st (args.headD .null) "remove" with
        | .error m => .err m st
        | .ok key =>
            let (removed, kvs') := hmapRemove key (st.dicts.getD ref [])
            .ok (removed.getD .null) (storeDict st ref kvs')

/-- `builtins::dict::items`: a fresh list of (key, value) tuples. -/
def dictItemsB (st : State) (this : Value) : Res :=
  match expectDict st this "items" with
  | .error m => .err m st
  | .ok ref =>
      let (nref, st') := allocList st
        ((st.dicts.getD ref []).map (fun kv => .tuple [hashableAsValue kv.1, kv.2]))
      .ok (.list nref) st'

/-- `builtins::dict::values`: a fresh list of the values. -/
def dictValuesB (st : State) (this : Value) : Res :=
  match expectDict st this "values" with
  | .error m => .err m st
  | .ok ref =>
      let (nref, st') := allocList st ((st.dicts.getD ref []).map (·.2))
      .ok (.list nref) st'

/-- `builtins::dict::keys`: a fresh list of the keys. -/
def dictKeysB (st : State) (this : Value) : Res :=
  match expectDict st this "keys" with
  | .error m => .err m st
  | .ok ref =>
      let (nref, st') := allocList st ((st.dicts.getD ref []).map (fun kv => hashableAsValue kv.1))
      .ok (.list nref) st'

/-- `builtins::dict::length`. -/
def dictLengthB (st : State) (this : Value) : Res :=
  match expectDict st this "length" with
  | .error m => .err m st
  | .ok ref => .ok (.int32 (st.dicts.getD ref []).length) st

/-- The call-result match at the end of `Interpreter::eval_call`
(mod.rs lines 326-333): a return-signal is unwrapped to the call's
value; any other body result is the MissingReturn error — never an
implicit Null. -/
def unwrapCallResult (st : State) (v : Value) : Res :=
  match v with
  | .ret value => .ok value st
  | other =>
      .err ("function must `return` a value (got "
            ++ displayValue displayFuelDef st other ++ " of type " ++ typeName other ++ ")") st

mutual

/-- `Interpreter::eval_expr` (mod.rs lines 69-286), against the frame
`scope`.  The fuel decreases on every nested evaluation step and bounds
only the recursion depth. -/
def evalExpr : Nat → Nat → State → Expr → Res
  | 0, _, _, _ => .timeout
  | fuel + 1, scope, st, e =>
    match e with
    | .member target field =>
        match evalExpr fuel scope st target with
        | .ok tv st1 =>
            match evalMemberVal tv field with
            | .ok v => .ok v st1
            | .error m => .err m st1
        | .err m st1 => .err m st1
        | .timeout => .timeout
    | .number n => .ok (.int32 n) st
    | .strLit s => .ok (.str s) st
    | .boolean b => .ok (.boolean b) st
    | .tuple values =>
        match evalExprList fuel scope st values with
        | .ok vs st1 => .ok (.tuple vs) st1
        | .err m st1 => .err m st1
        | .timeout => .timeout
    | .identifier name =>
        match scopeGet st scope name with
        | some v => .ok v st
        | none => .err ("undefined variable " ++ name) st
    | .binaryOp op left right =>
        match op with
        | .logAnd => evalLogicalOp fuel scope st .logAnd left right
        | .logOr => evalLogicalOp fuel scope st .logOr left right
        | _ =>
            match evalExpr fuel scope st left with
            | .ok lv st1 =>
                match evalExpr fuel scope st1 right with
                | .ok rv st2 =>
                    match evalBinaryOp st2 op lv rv with
                    | .ok v => .ok v st2
                    | .error m => .err m st2
                | .err m st2 => .err m st2
                | .timeout => .timeout
            | .err m st1 => .err m st1
            | .timeout => .timeout
    | .unaryOp op operand =>
        match evalExpr fuel scope st operand with
        | .ok v st1 =>
            match evalUnaryOp st1 op v with
            | .ok w => .ok w st1
            | .error m => .err m st1
        | .err m st1 => .err m st1
        | .timeout => .timeout
    | .call target args => evalCall fuel scope st target args
    | .fnLit arguments statement =>
        let (idx, st1) := scopeBranch st scope
        .ok (.fnVal arguments statement idx) st1
    | .block stmts =>
        let (child, st1) := scopeBranch st scope
        blockLoop fuel child st1 stmts

termination_by structural fuel _ _ _ => fuel

/-- Left-to-right evaluation of an expression list
(`collect::<Result<Vec<_>,_>>()`): the first error aborts. -/
def evalExprList : Nat → Nat → State → List Expr → ResL
  | 0, _, _, _ => .timeout
  | _ + 1, _, st, [] => .ok [] st
  | fuel + 1, scope, st, e :: es =>
      match evalExpr fuel scope st e with
      | .ok v st1 =>
          match evalExprList fuel scope st1 es with
          | .ok vs st2 => .ok (v :: vs) st2
          | .err m st2 => .err m st2
          | .timeout => .timeout
      | .err m st1 => .err m st1
      | .timeout => .timeout

termination_by structural fuel _ _ _ => fuel

/-- The statement loop of `Expr::Block` evaluation (mod.rs lines
277-281): `if let Ok(Value::Return { .. }) = execute_statement(..)`.
A return-signal stops the loop and is surfaced; any OTHER outcome —
including an error, whose `Err` fails the `if let Ok` pattern and is
silently dropped — falls through to the next statement; a finished loop
yields Null. -/
def blockLoop : Nat → Nat → State → List Stmt → Res
  | 0, _, _, _ => .timeout
  | _ + 1, _, st, [] => .ok .null st
  | fuel + 1, scope, st, stmt :: rest =>
      match execStatement fuel scope st stmt with
      | .ok (.ret v) st1 => .ok (.ret v) st1
      | .ok _ st1 => blockLoop fuel scope st1 rest
      | .err _ st1 => blockLoop fuel scope st1 rest
      | .timeout => .timeout

termination_by structural fuel _ _ _ => fuel

/-- `Interpreter::eval_call` (mod.rs lines 288-340): a builtin target
evaluates its arguments and dispatches; a user function target checks
arity FIRST, then evaluates the arguments left to right in the caller's
scope, binds parameters in a fresh child of the callee's captured
scope, evaluates the body and requires a return-signal; anything else
is not callable. -/
def evalCall : Nat → Nat → State → Expr → List Expr → Res
  | 0, _, _, _, _ => .timeout
  | fuel + 1, scope, st, target, argExprs =>
      match evalExpr fuel scope st target with
      | .ok (.builtinFn tag this) st1 =>
          match evalExprList fuel scope st1 argExprs with
          | .ok vs st2 => callBuiltin fuel st2 tag this vs
          | .err m st2 => .err m st2
          | .timeout => .timeout
      | .ok (.fnVal params body fscope) st1 =>
          if params.length ≠ argExprs.length then
            .err ("function expected " ++ toString params.length ++ " argument(s), got "
                  ++ toString argExprs.length) st1
          else
            match evalExprList fuel scope st1 argExprs with
            | .ok vs st2 =>
                let (child, st3) := scopeBranch st2 fscope
                let st4 := declareAll st3 child params vs
                match evalExpr fuel child st4 body with
                | .ok v st5 => unwrapCallResult st5 v
                | .err m st5 => .err ("function evaluation failed: " ++ m) st5
                | .timeout => .timeout
            | .err m st2 => .err m st2
            | .timeout => .timeout
      | .ok other st1 =>
          .err ("call target is not callable (got type " ++ typeName other ++ ")") st1
      | .err m st1 => .err m st1
      | .timeout => .timeout

termination_by structural fuel _ _ _ _ => fuel

/-- `Interpreter::eval_logical_op` (mod.rs lines 342-365): strict
boolean operands with short-circuiting — when the left operand already
determines the result, the right operand is never evaluated.  (The
host's `unreachable!()` arm for non-logical operators, a panic, is
modelled as an error; `eval_expr` never routes other operators here.) -/
def evalLogicalOp : Nat → Nat → State → BinOp → Expr → Expr → Res
  | 0, _, _, _, _, _ => .timeout
  | fuel + 1, scope, st, op, left, right =>
      match evalExpr fuel scope st left with
      | .ok lv st1 =>
          match toBool st1 lv with
          | .error m => .err m st1
          | .ok lb =>
              match op with
              | .logAnd =>
                  if lb = false then .ok (.boolean false) st1
                  else
                    match evalExpr fuel scope st1 right with
                    | .ok rv st2 =>
                        match toBool st2 rv with
                        | .ok rb => .ok (.boolean rb) st2
                        | .error m => .err m st2
                    | .err m st2 => .err m st2
                    | .timeout => .timeout
              | .logOr =>
                  if lb = true then .ok (.boolean true) st1
                  else
                    match evalExpr fuel scope st1 right with
                    | .ok rv st2 =>
                        match toBool st2 rv with
                        | .ok rb => .ok (.boolean rb) st2
                        | .error m => .err m st2
                    | .err m st2 => .err m st2
                    | .timeout => .timeout
              | _ => .err "eval_logical_op called with non-logical operator" st1
      | .err m st1 => .err m st1
      | .timeout => .timeout

termination_by structural fuel _ _ _ _ _ => fuel

/-- Dispatch of a builtin call on its operation tag: each arm is the
corresponding Rust function from src/interpreter/builtins. -/
def callBuiltin : Nat → State → BuiltinTag → Value → List Value → Res
  | 0, _, _, _, _ => .timeout
  | fuel + 1, st, tag, this, args =>
      match tag with
      | .listNew => listNewB st args
      | .dictNew => dictNewB st args
      | .setNew => setNewB st args
      | .listJoin => listJoinB st this args
      | .listLength => listLengthB st this
      | .listAt => listAtB st this args
      | .listPop => listPopB st this
      | .listPush => listPushB st this args
      | .listMap => listMapB fuel st this args
      | .listFilter => listFilterB fuel st this args
      | .listAll => listAllB fuel st this args
      | .listAny => listAnyB fuel st this args
      | .listSum => listSumB st this
      | .setHas => setHasB st this args
      | .setUnion => setUnionB st this args
      | .setIntersection => setIntersectionB st this args
      | .setDifference => setDifferenceB st this args
      | .setAdd => setAddB st this args
      | .setRemove => setRemoveB st this args
      | .setLength => setLengthB st this
      | .dictGet => dictGetB st this args
      | .dictSet => dictSetB st this args
      | .dictRemove => dictRemoveB st this args
      | .dictItems => dictItemsB st this
      | .dictKeys => dictKeysB st this
      | .dictValues => dictValuesB st this
      | .dictLength => dictLengthB st this

termination_by structural fuel _ _ _ _ => fuel

/-- `builtins::list::map`: the first argument must be a function with
at least one parameter (only the first is bound); each element, in
order, is bound in a fresh child of the callback's captured scope and
the body must produce a return-signal; the results form a fresh list. -/
def listMapB : Nat → State → Value → List Value → Res
  | 0, _, _, _ => .timeout
  | fuel + 1, st, this, args =>
      match expectCallable st args "map" with
      | .error m => .err m st
      | .ok (params, body, fnScope) =>
          match params.head? with
          | none => .err "map: function must accept at least 1 parameter" st
          | some param =>
              match expectList st this "map" with
              | .error m => .err m st
              | .ok ref =>
                  match mapLoop fuel st param body fnScope (st.lists.getD ref []) with
                  | .ok outs st1 =>
                      let (nref, st2) := allocList st1 outs
                      .ok (.list nref) st2
                  | .err m st1 => .err m st1
                  | .timeout => .timeout

termination_by structural fuel _ _ _ => fuel

/-- The per-element loop of `map`. -/
def mapLoop : Nat → State → String → Expr → Nat → List Value → ResL
  | 0, _, _, _, _, _ => .timeout
  | _ + 1, st, _, _, _, [] => .ok [] st
  | fuel + 1, st, param, body, fnScope, v :: rest =>
      let (child, st1) := scopeBranch st fnScope
      let st2 := scopeDeclare st1 child param v
      match evalExpr fuel child st2 body with
      | .ok ev st3 =>
          match expectReturn st3 ev "map" with
          | .ok r =>
              match mapLoop fuel st3 param body fnScope rest with
              | .ok rs st4 => .ok (r :: rs) st4
              | .err m st4 => .err m st4
              | .timeout => .timeout
          | .error m => .err m st3
      | .err m st3 => .err ("map: function evaluation failed: " ++ m) st3
      | .timeout => .timeout

termination_by structural fuel _ _ _ _ _ => fuel

/-- `builtins::list::filter`: same argument discipline as `map`; the
callback's returned value must be a strict boolean, and elements whose
result is true are kept. -/
def listFilterB : Nat → State → Value → List Value → Res
  | 0, _, _, _ => .timeout
  | fuel + 1, st, this, args =>
      match expectCallable st args "filter" with
      | .error m => .err m st
      | .ok (params, body, fnScope) =>
          match params.head? with
          | none => .err "filter: function must accept at least 1 parameter" st
          | some param =>
              match expectList st this "filter" with
              | .error m => .err m st
              | .ok ref =>
                  match filterLoop fuel st param body fnScope (st.lists.getD ref []) with
                  | .ok outs st1 =>
                      let (nref, st2) := allocList st1 outs
                      .ok (.list nref) st2
                  | .err m st1 => .err m st1
                  | .timeout => .timeout

termination_by structural fuel _ _ _ => fuel

/-- The per-element loop of `filter`. -/
def filterLoop : Nat → State → String → Expr → Nat → List Value → ResL
  | 0, _, _, _, _, _ => .timeout
  | _ + 1, st, _, _, _, [] => .ok [] st
  | fuel + 1, st, param, body, fnScope, v :: rest =>
      let (child, st1) := scopeBranch st fnScope
      let st2 := scopeDeclare st1 child param v
      match evalExpr fuel child st2 body with
      | .ok ev st3 =>
          match expectReturn st3 ev "filter" with
          | .ok r =>
              match toBool st3 r with
              | .error m => .err m st3
              | .ok keep =>
                  match filterLoop fuel st3 param body fnScope rest with
                  | .ok rs st4 => .ok (if keep then v :: rs else rs) st4
                  | .err m st4 => .err m st4
                  | .timeout => .timeout
          | .error m => .err m st3
      | .err m st3 => .err ("filter: function evaluation failed: " ++ m) st3
      | .timeout => .timeout

termination_by structural fuel _ _ _ _ _ => fuel

/-- `builtins::list::all`: short-circuits to false at the first
callback result that is false. -/
def listAllB : Nat → State → Value → List Value → Res
  | 0, _, _, _ => .timeout
  | fuel + 1, st, this, args =>
      match expectCallable st args "all" with
      | .error m => .err m st
      | .ok (params, body, fnScope) =>
          match params.head? with
          | none => .err "all: function must accept at least 1 parameter" st
          | some param =>
              match expectList st this "all" with
              | .error m => .err m st
              | .ok ref => allLoop fuel st param body fnScope (st.lists.getD ref [])

termination_by structural fuel _ _ _ => fuel

/-- The per-element loop of `all`. -/
def allLoop : Nat → State → String → Expr → Nat → List Value → Res
  | 0, _, _, _, _, _ => .timeout
  | _ + 1, st, _, _, _, [] => .ok (.boolean true) st
  | fuel + 1, st, param, body, fnScope, v :: rest =>
      let (child, st1) := scopeBranch st fnScope
      let st2 := scopeDeclare st1 child param v
      match evalExpr fuel child st2 body with
      | .ok ev st3 =>
          match expectReturn st3 ev "all" with
          | .ok r =>
              match toBool st3 r with
              | .error m => .err m st3
              | .ok b =>
                  if b = false then .ok (.boolean false) st3
                  else allLoop fuel st3 param body fnScope rest
          | .error m => .err m st3
      | .err m st3 => .err ("all: function evaluation failed: " ++ m) st3
      | .timeout => .timeout

termination_by structural fuel _ _ _ _ _ => fuel

/-- `builtins::list::any`: short-circuits to true at the first
callback result that is true. -/
def listAnyB : Nat → State → Value → List Value → Res
  | 0, _, _, _ => .timeout
  | fuel + 1, st, this, args =>
      match expectCallable st args "any" with
      | .error m => .err m st
      | .ok (params, body, fnScope) =>
          match params.head? with
          | none => .err "any: function must accept at least 1 parameter" st
          | some param =>
              match expectList st this "any" with
              | .error m => .err m st
              | .ok ref => anyLoop fuel st param body fnScope (st.lists.getD ref [])

termination_by structural fuel _ _ _ => fuel

/-- The per-element loop of `any`. -/
def anyLoop : Nat → State → String → Expr → Nat → List Value → Res
  | 0, _, _, _, _, _ => .timeout
  | _ + 1, st, _, _, _, [] => .ok (.boolean false) st
  | fuel + 1, st, param, body, fnScope, v :: rest =>
      let (child, st1) := scopeBranch st fnScope
      let st2 := scopeDeclare st1 child param v
      match evalExpr fuel child st2 body with
      | .ok ev st3 =>
          match expectReturn st3 ev "any" with
          | .ok r =>
              match toBool st3 r with
              | .error m => .err m st3
              | .ok b =>
                  if b = true then .ok (.boolean true) st3
                  else anyLoop fuel st3 param body fnScope rest
          | .error m => .err m st3
      | .err m st3 => .err ("any: function evaluation failed: " ++ m) st3
      | .timeout => .timeout

termination_by structural fuel _ _ _ _ _ => fuel

/-- `Interpreter::execute_statement` (mod.rs lines 381-472). -/
def execStatement : Nat → Nat → State → Stmt → Res
  | 0, _, _, _ => .timeout
  | fuel + 1, scope, st, stmt =>
    match stmt with
    | .print exprs =>
        match evalExprList fuel scope st exprs with
        | .ok vs st1 =>
            let line := joinSep " " (vs.map (displayValue displayFuelDef st1))
            .ok .null { st1 with output := st1.output ++ [line] }
        | .err m st1 => .err m st1
        | .timeout => .timeout
    | .assignment name value =>
        match evalExpr fuel scope st value with
        | .ok nv st1 =>
            match scopeSet st1 scope name nv with
            | some st2 => .ok .null st2
            | none => .err (name ++ " is an undefined variable!") st1
        | .err m st1 => .err m st1
        | .timeout => .timeout
    | .declaration name value =>
        match evalExpr fuel scope st value with
        | .ok nv st1 => .ok .null (scopeDeclare st1 scope name nv)
        | .err m st1 => .err m st1
        | .timeout => .timeout
    | .ifStmt condition thenStmt elseStmt =>
        match evalExpr fuel scope st condition with
        | .ok cv st1 =>
            match toBool st1 cv with
            | .error m => .err m st1
            | .ok true => evalExpr fuel scope st1 thenStmt
            | .ok false =>
                match elseStmt with
                | some e => evalExpr fuel scope st1 e
                | none => .ok .null st1
        | .err m st1 => .err m st1
        | .timeout => .timeout
    | .whileStmt condition body => whileLoop fuel scope st condition body
    | .forStmt init condition update body =>
        match init with
        | some i =>
            match execStatement fuel scope st i with
            | .ok _ st1 => forLoop fuel scope st1 condition update body
            | .err m st1 => .err m st1
            | .timeout => .timeout
        | none => forLoop fuel scope st condition update body
    | .retStmt e =>
        match evalExpr fuel scope st e with
        | .ok v st1 => .ok (.ret v) st1
        | .err m st1 => .err m st1
        | .timeout => .timeout
    | .expression e => evalExpr fuel scope st e

termination_by structural fuel _ _ _ => fuel

/-- The `while` loop of `execute_statement`: re-evaluate the condition
before every iteration; a body yielding a return-signal stops the loop
and propagates it. -/
def whileLoop : Nat → Nat → State → Expr → Expr → Res
  | 0, _, _, _, _ => .timeout
  | fuel + 1, scope, st, condition, body =>
      match evalExpr fuel scope st condition with
      | .ok cv st1 =>
          match toBool st1 cv with
          | .error m => .err m st1
          | .ok false => .ok .null st1
          | .ok true =>
              match evalExpr fuel scope st1 body with
              | .ok (.ret v) st2 => .ok (.ret v) st2
              | .ok _ st2 => whileLoop fuel scope st2 condition body
              | .err m st2 => .err m st2
              | .timeout => .timeout
      | .err m st1 => .err m st1
      | .timeout => .timeout

termination_by structural fuel _ _ _ _ => fuel

/-- The `for` loop of `execute_statement` (after the init statement):
a missing condition is always-true; a body yielding a return-signal
propagates immediately WITHOUT running the update clause; an update's
own return-signal is discarded (only its errors propagate). -/
def forLoop : Nat → Nat → State → Option Expr → Option Stmt → Expr → Res
  | 0, _, _, _, _, _ => .timeout
  | fuel + 1, scope, st, condition, update, body =>
      match condition with
      | some c =>
          match evalExpr fuel scope st c with
          | .ok cv st1 =>
              match toBool st1 cv with
              | .error m => .err m st1
              | .ok false => .ok .null st1
              | .ok true => forIter fuel scope st1 condition update body
          | .err m st1 => .err m st1
          | .timeout => .timeout
      | none => forIter fuel scope st condition update body

termination_by structural fuel _ _ _ _ _ => fuel

/-- One body-then-update iteration of the `for` loop. -/
def forIter : Nat → Nat → State → Option Expr → Option Stmt → Expr → Res
  | 0, _, _, _, _, _ => .timeout
  | fuel + 1, scope, st, condition, update, body =>
      match evalExpr fuel scope st body with
      | .ok (.ret v) st1 => .ok (.ret v) st1
      | .ok _ st1 =>
          match update with
          | some u =>
              match execStatement fuel scope st1 u with
              | .ok _ st2 => forLoop fuel scope st2 condition update body
              | .err m st2 => .err m st2
              | .timeout => .timeout
          | none => forLoop fuel scope st1 condition update body
      | .err m st1 => .err m st1
      | .timeout => .timeout

termination_by structural fuel _ _ _ _ _ => fuel

end

/-- `Interpreter::execute_statements` (mod.rs lines 374-379), the
top-level program loop: `self.execute_statement(stmt)?` — errors
PROPAGATE immediately (fail-fast), ok results (including a stray
return-signal) are discarded, and a finished program yields Null. -/
def execStatements : Nat → Nat → State → List Stmt → Res
  | 0, _, _, _ => .timeout
  | _ + 1, _, st, [] => .ok .null st
  | fuel + 1, scope, st, stmt :: rest =>
      match execStatement fuel scope st stmt with
      | .ok _ st1 => execStatements fuel scope st1 rest
      | .err m st1 => .err m st1
      | .timeout => .timeout

/-- `Interpreter::run_program` against the pre-populated root scope. -/
def runProgram (fuel : Nat) (prog : List Stmt) : Res :=
  execStatements fuel 0 initState prog

/-- The value of a successful result. -/
def resValue : Res → Option Value
  | .ok v _ => some v
  | _ => none

/-- The message of a failed result. -/
def resErrMsg : Res → Option String
  | .err m _ => some m
  | _ => none

/-- Whether the result is an error. -/
def resIsErr : Res → Bool
  | .err _ _ => true
  | _ => false

/-- The lines printed so far, readable from both outcomes. -/
def resOutput : Res → Option (List String)
  | .ok _ s => some s.output
  | .err _ s => some s.output
  | .timeout => none

/-- Whether a value is the return-signal marker. -/
def isRet : Value → Bool
  | .ret _ => true
  | _ => false

/-- Program: `let a = list(1)  print(a == a, a != a)` — equality on the
very same list reference. -/
def selfEqProg : List Stmt :=
  [ .declaration "a" (.call (.identifier "list") [.number 1]),
    .print [.binaryOp .eq (.identifier "a") (.identifier "a"),
            .binaryOp .ne (.identifier "a") (.identifier "a")] ]

/-- C10: `==` yields true only for equal Null/int/bool/string pairs;
for every compound value, comparing it with itself — even the very same
reference — yields false (and `!=` true), never an error. -/
theorem c10_equality_defined_pairwise_on_scalars :
    (∀ st l r, evalBinaryOp st .eq l r = .ok (.boolean (valueEq l r))
             ∧ evalBinaryOp st .ne l r = .ok (.boolean (!valueEq l r)))
  ∧ (∀ a b : Int, valueEq (.int32 a) (.int32 b) = true ↔ a = b)
  ∧ (∀ a b : Bool, valueEq (.boolean a) (.boolean b) = true ↔ a = b)
  ∧ (∀ a b : String, valueEq (.str a) (.str b) = true ↔ a = b)
  ∧ valueEq .null .null = true
  ∧ (∀ r, valueEq (.list r) (.list r) = false)
  ∧ (∀ r, valueEq (.setV r) (.setV r) = false)
  ∧ (∀ r, valueEq (.dictionary r) (.dictionary r) = false)
  ∧ (∀ vs, valueEq (.tuple vs) (.tuple vs) = false)
  ∧ (∀ ps body sc, valueEq (.fnVal ps body sc) (.fnVal ps body sc) = false)
  ∧ (∀ tag this, valueEq (.builtinFn tag this) (.builtinFn tag this) = false)
  ∧ resOutput (runProgram 12 selfEqProg) = some ["false true"] := by
  refine ⟨fun st l r => ⟨rfl, rfl⟩, ?_, ?_, ?_, rfl,
          fun r => rfl, fun r => rfl, fun r => rfl, fun vs => rfl,
          fun ps body sc => rfl, fun tag this => rfl, ?_⟩
  · intro a b; simp [valueEq]
  · intro a b; simp [valueEq]
  · intro a b; simp [valueEq]
  · simp [runProgram, execStatements, execStatement, evalExpr, evalExprList, evalCall,
          callBuiltin, listNewB, allocList, selfEqProg, initState, scopeGet, scopeGetAux,
          scopeBranch, scopeDeclare, frameLookup, frameInsert, frameReplace, emptyFrame,
          evalBinaryOp, valueEq, displayValue, displayValues, displayFuelDef, joinSep,
          resOutput]
    rfl

/-- C2 counterexample: the claim says an ordering comparison on
operands of non-identical scalar types fails with a type error; on the
code, `1 < "a"` (and `<=`, `>`, `>=`) evaluates successfully to false. -/
theorem c2_counterexample_mixed_ordering_succeeds :
    evalBinaryOp initState .lt (.int32 1) (.str "a") = .ok (.boolean false)
  ∧ evalBinaryOp initState .le (.int32 1) (.str "a") = .ok (.boolean false)
  ∧ evalBinaryOp initState .gt (.int32 1) (.str "a") = .ok (.boolean false)
  ∧ evalBinaryOp initState .ge (.int32 1) (.str "a") = .ok (.boolean false) :=
  ⟨rfl, rfl, rfl, rfl⟩

/-- C2 (amended): ordering comparisons never fail: they always yield a
boolean; on two operands of the same scalar type they compute the
natural ordering, and on every other pair (mixed scalar types or any
non-scalar operand) they all yield false. -/
theorem c2_ordering_total_on_scalars :
    (∀ st l r, evalBinaryOp st .lt l r = .ok (.boolean (valueLt l r))
             ∧ evalBinaryOp st .le l r = .ok (.boolean (valueLe l r))
             ∧ evalBinaryOp st .gt l r = .ok (.boolean (valueGt l r))
             ∧ evalBinaryOp st .ge l r = .ok (.boolean (valueGe l r)))
  ∧ (∀ l r, sameScalarType l r = false →
       valueLt l r = false ∧ valueLe l r = false ∧ valueGt l r = false ∧ valueGe l r = false)
  ∧ (∀ a b : Int, (valueLt (.int32 a) (.int32 b) = true ↔ a < b)
                ∧ (valueLe (.int32 a) (.int32 b) = true ↔ a ≤ b)
                ∧ (valueGt (.int32 a) (.int32 b) = true ↔ b < a)
                ∧ (valueGe (.int32 a) (.int32 b) = true ↔ b ≤ a))
  ∧ (∀ a b : String, (valueLt (.str a) (.str b) = true ↔ a < b))
  ∧ (∀ a b : Bool, valueLt (.boolean a) (.boolean b) = (!a && b)) := by
  refine ⟨fun st l r => ⟨rfl, rfl, rfl, rfl⟩, ?_, ?_, ?_, ?_⟩
  · intro l r h
    cases l <;> cases r <;>
      first
        | exact ⟨rfl, rfl, rfl, rfl⟩
        | simp [sameScalarType] at h
  · intro a b
    refine ⟨?_, ?_, ?_, ?_⟩ <;>
      simp only [valueLt, valueLe, valueGt, valueGe, valueCmpOpt, intCmp] <;>
      split_ifs <;> simp_all <;> omega
  · intro a b
    simp only [valueLt, valueCmpOpt, strCmp]
    split_ifs <;> simp_all
  · intro a b
    cases a <;> cases b <;> rfl

/-- C2 witness: the amended theorem applied at the mixed pair
`(1, "a")`. -/
theorem c2_witness :
    sameScalarType (.int32 1) (.str "a") = false
  ∧ (valueLt (.int32 1) (.str "a") = false ∧ valueLe (.int32 1) (.str "a") = false
     ∧ valueGt (.int32 1) (.str "a") = false ∧ valueGe (.int32 1) (.str "a") = false) :=
  ⟨rfl, c2_ordering_total_on_scalars.2.1 (.int32 1) (.str "a") rfl⟩

/-- C9: `&&` and `||` are strict-boolean and short-circuit: for EVERY
right operand expression e — including one whose evaluation would error
or mutate state — `false && e` yields false and `true || e` yields
true with the state untouched; a non-boolean operand that is evaluated
(left always, right only when reached) raises the strict-boolean type
error instead of being coerced; in particular `true || (1/0)` and
`false && (1/0)` succeed without a divide-by-zero error. -/
theorem c9_logical_strict_and_short_circuit :
    (∀ n scope st e,
       evalExpr (n + 3) scope st (.binaryOp .logAnd (.boolean false) e)
         = .ok (.boolean false) st)
  ∧ (∀ n scope st e,
       evalExpr (n + 3) scope st (.binaryOp .logOr (.boolean true) e)
         = .ok (.boolean true) st)
  ∧ (∀ n scope st m e,
       evalExpr (n + 3) scope st (.binaryOp .logAnd (.number m) e)
         = .err ("Expcted boolean got: " ++ toString m) st)
  ∧ (∀ n scope st m e,
       evalExpr (n + 3) scope st (.binaryOp .logOr (.number m) e)
         = .err ("Expcted boolean got: " ++ toString m) st)
  ∧ (∀ n scope st m,
       evalExpr (n + 3) scope st (.binaryOp .logAnd (.boolean true) (.number m))
         = .err ("Expcted boolean got: " ++ toString m) st)
  ∧ (∀ n scope st m,
       evalExpr (n + 3) scope st (.binaryOp .logOr (.boolean false) (.number m))
         = .err ("Expcted boolean got: " ++ toString m) st)
  ∧ (∀ n scope st,
       evalExpr (n + 3) scope st
         (.binaryOp .logOr (.boolean true) (.binaryOp .div (.number 1) (.number 0)))
         = .ok (.boolean true) st)
  ∧ (∀ n scope st,
       evalExpr (n + 3) scope st
         (.binaryOp .logAnd (.boolean false) (.binaryOp .div (.number 1) (.number 0)))
         = .ok (.boolean false) st) := by
  refine ⟨?_, ?_, ?_, ?_, ?_, ?_, ?_, ?_⟩ <;> intros <;>
    simp [evalExpr, evalLogicalOp, toBool, displayValue, displayFuelDef]

/-- Program: `let f = fn(x) { x }  f(1)` — the body never returns. -/
def noReturnProg : List Stmt :=
  [ .declaration "f" (.fnLit ["x"] (.block [.expression (.identifier "x")])),
    .expression (.call (.identifier "f") [.number 1]) ]

/-- Program: `let f = fn(x) { return x }  print(f(5))`. -/
def withReturnProg : List Stmt :=
  [ .declaration "f" (.fnLit ["x"] (.block [.retStmt (.identifier "x")])),
    .print [.call (.identifier "f") [.number 5]] ]

/-- Program: `list(1).map(fn(x) { x })` — a callback body that never
returns. -/
def mapNoReturnProg : List Stmt :=
  [ .expression (.call (.member (.call (.identifier "list") [.number 1]) "map")
      [.fnLit ["x"] (.block [.expression (.identifier "x")])]) ]

/-- C6: a call (and a higher-order builtin's callback invocation)
yields the unwrapped payload when the body produced a return-signal,
and fails with the MissingReturn error on ANY other body result — never
an implicit Null: shown on the unwrap step of `eval_call`, on the
builtins' `expect_return`, and end-to-end on programs with and without
`return` (the map error names the builtin). -/
theorem c6_call_requires_return_signal :
    (∀ st v, unwrapCallResult st (.ret v) = .ok v st)
  ∧ (∀ st v, isRet v = false →
       unwrapCallResult st v
         = .err ("function must `return` a value (got "
                 ++ displayValue displayFuelDef st v ++ " of type " ++ typeName v ++ ")") st)
  ∧ (∀ st v fname, expectReturn st (.ret v) fname = .ok v)
  ∧ (∀ st v fname, isRet v = false →
       expectReturn st v fname
         = .error (fname ++ ": function must `return` a value (got "
                   ++ displayValue displayFuelDef st v ++ ")"))
  ∧ resErrMsg (runProgram 12 noReturnProg)
      = some "function must `return` a value (got NULL of type null)"
  ∧ resOutput (runProgram 12 withReturnProg) = some ["5"]
  ∧ resErrMsg (runProgram 16 mapNoReturnProg)
      = some "map: function must `return` a value (got NULL)" := by
  refine ⟨fun st v => rfl, ?_, fun st v fname => rfl, ?_, ?_, ?_, ?_⟩
  · intro st v h; cases v <;> simp_all [isRet, unwrapCallResult]
  · intro st v fname h; cases v <;> simp_all [isRet, expectReturn]
  · simp [runProgram, execStatements, execStatement, evalExpr, evalExprList, evalCall,
          blockLoop, noReturnProg, initState, scopeGet, scopeGetAux, scopeBranch,
          scopeDeclare, frameLookup, frameInsert, frameReplace, declareAll, emptyFrame,
          unwrapCallResult, displayValue, displayFuelDef, typeName, resErrMsg]
  · simp [runProgram, execStatements, execStatement, evalExpr, evalExprList, evalCall,
          blockLoop, withReturnProg, initState, scopeGet, scopeGetAux, scopeBranch,
          scopeDeclare, frameLookup, frameInsert, frameReplace, declareAll, emptyFrame,
          unwrapCallResult, displayValue, displayValues, displayFuelDef, joinSep, resOutput]
    rfl
  · simp [runProgram, execStatements, execStatement, evalExpr, evalExprList, evalCall,
          blockLoop, mapNoReturnProg, initState, scopeGet, scopeGetAux, scopeBranch,
          scopeDeclare, frameLookup, frameInsert, frameReplace, declareAll, emptyFrame,
          callBuiltin, listNewB, allocList, evalMemberVal, listMapB, mapLoop,
          expectCallable, expectList, expectReturn, unwrapCallResult,
          displayValue, displayFuelDef, typeName, resErrMsg]

/-- C6 witness: the MissingReturn branch applied to the concrete
non-return value Null. -/
theorem c6_witness :
    isRet Value.null = false
  ∧ unwrapCallResult initState Value.null
      = .err "function must `return` a value (got NULL of type null)" initState := by
  refine ⟨rfl, ?_⟩
  have h := c6_call_requires_return_signal.2.1 initState Value.null rfl
  simpa [displayValue, displayFuelDef, typeName] using h

/-- Program: `let f = fn(a) { return a }  f(1/0, 2)` — a call with the
wrong argument count whose first argument would raise a
divide-by-zero error if it were evaluated. -/
def arityProg : List Stmt :=
  [ .declaration "f" (.fnLit ["a"] (.block [.retStmt (.identifier "a")])),
    .expression (.call (.identifier "f")
      [.binaryOp .div (.number 1) (.number 0), .number 2]) ]

/-- C5 counterexample: the claim says argument expressions are
evaluated (left to right) BEFORE the arity check, so `f(1/0, 2)` on a
one-parameter `f` would fail with the divide-by-zero error; on the
code it fails with the arity error instead — the arguments were never
evaluated. -/
theorem c5_counterexample_arity_error_first :
    resErrMsg (runProgram 12 arityProg) = some "function expected 1 argument(s), got 2" := by
  simp [runProgram, execStatements, execStatement, evalExpr, evalExprList, evalCall,
        blockLoop, arityProg, initState, scopeGet, scopeGetAux, scopeBranch,
        scopeDeclare, frameLookup, frameInsert, frameReplace, emptyFrame, resErrMsg]
  rfl

/-- C5 (amended): for a user-defined function call the arity check
comes FIRST: whenever the argument count differs from the parameter
count, the call fails with the arity error and NO argument expression
is evaluated — the quantification over arbitrary argument expressions
(which could error or mutate) and the untouched final state show that
no argument side effect occurs before the arity failure. -/
theorem c5_arity_checked_before_arguments
    (n scope : Nat) (st : State) (fname : String) (params : List String)
    (body : Expr) (fsc : Nat) (argExprs : List Expr)
    (hlook : scopeGet st scope fname = some (.fnVal params body fsc))
    (hlen : params.length ≠ argExprs.length) :
    evalExpr (n + 3) scope st (.call (.identifier fname) argExprs)
      = .err ("function expected " ++ toString params.length ++ " argument(s), got "
              ++ toString argExprs.length) st := by
  simp [evalExpr, evalCall, hlook, hlen]

/-- C5 witness: the amended theorem applied to a one-parameter
function called with two arguments. -/
theorem c5_witness :
    scopeGet (scopeDeclare initState 0 "f" (.fnVal ["a"] (.block []) 0)) 0 "f"
      = some (.fnVal ["a"] (.block []) 0)
  ∧ (["a"].length ≠ [Expr.number 1, Expr.number 2].length)
  ∧ evalExpr 3 0 (scopeDeclare initState 0 "f" (.fnVal ["a"] (.block []) 0))
      (.call (.identifier "f") [.number 1, .number 2])
      = .err ("function expected " ++ toString (["a"].length) ++ " argument(s), got "
              ++ toString [Expr.number 1, Expr.number 2].length)
            (scopeDeclare initState 0 "f" (.fnVal ["a"] (.block []) 0)) :=
  ⟨rfl, by decide,
   c5_arity_checked_before_arguments 0 0 _ "f" ["a"] (.block []) 0 _ rfl (by decide)⟩

/-- C8: (i) a statement yielding a return-signal stops the block loop
at once — the remaining statements, universally quantified, are never
executed — and the same signal is surfaced; (ii) a while body yielding
a return-signal stops the loop and propagates it; (iii) a for body
yielding a return-signal propagates it immediately, for EVERY update
clause (so the update is not run); (iv) a block loop can only end in a
surfaced return-signal, Null, or fuel exhaustion (which the host does
not have) — so a block in which no return occurred yields Null; (v)
block evaluation is exactly this loop in a fresh child scope. -/
theorem c8_return_signal_short_circuits :
    (∀ n scope st stmt rest v st1,
       execStatement n scope st stmt = .ok (.ret v) st1 →
       blockLoop (n + 1) scope st (stmt :: rest) = .ok (.ret v) st1)
  ∧ (∀ n scope st cond body cv st1 v st2,
       evalExpr n scope st cond = .ok cv st1 →
       toBool st1 cv = .ok true →
       evalExpr n scope st1 body = .ok (.ret v) st2 →
       whileLoop (n + 1) scope st cond body = .ok (.ret v) st2)
  ∧ (∀ n scope st update body v st1,
       evalExpr n scope st body = .ok (.ret v) st1 →
       forLoop (n + 2) scope st none update body = .ok (.ret v) st1)
  ∧ (∀ fuel scope st stmts,
       (∃ v st1, blockLoop fuel scope st stmts = .ok (.ret v) st1)
     ∨ (∃ st1, blockLoop fuel scope st stmts = .ok .null st1)
     ∨ blockLoop fuel scope st stmts = .timeout)
  ∧ (∀ n scope st stmts,
       evalExpr (n + 1) scope st (.block stmts)
         = blockLoop n (scopeBranch st scope).1 (scopeBranch st scope).2 stmts) := by
  refine ⟨?_, ?_, ?_, ?_, ?_⟩
  · intro n scope st stmt rest v st1 h
    simp [blockLoop, h]
  · intro n scope st cond body cv st1 v st2 h1 h2 h3
    simp [whileLoop, h1, h2, h3]
  · intro n scope st update body v st1 h
    simp [forLoop, forIter, h]
  · intro fuel
    induction fuel with
    | zero => intro scope st stmts; right; right; rfl
    | succ n ih =>
        intro scope st stmts
        match stmts with
        | [] => right; left; exact ⟨st, rfl⟩
        | stmt :: rest =>
            cases hres : execStatement n scope st stmt with
            | ok v st1 =>
                cases v with
                | ret w => left; exact ⟨w, st1, by simp [blockLoop, hres]⟩
                | null =>
                    have := ih scope st1 rest
                    simpa [blockLoop, hres] using this
                | int32 m =>
                    have := ih scope st1 rest
                    simpa [blockLoop, hres] using this
                | boolean b =>
                    have := ih scope st1 rest
                    simpa [blockLoop, hres] using this
                | str s =>
                    have := ih scope st1 rest
                    simpa [blockLoop, hres] using this
                | fnVal a b c =>
                    have := ih scope st1 rest
                    simpa [blockLoop, hres] using this
                | list r =>
                    have := ih scope st1 rest
                    simpa [blockLoop, hres] using this
                | dictionary r =>
                    have := ih scope st1 rest
                    simpa [blockLoop, hres] using this
                | tuple vs =>
                    have := ih scope st1 rest
                    simpa [blockLoop, hres] using this
                | setV r =>
                    have := ih scope st1 rest
                    simpa [blockLoop, hres] using this
                | builtinFn t v =>
                    have := ih scope st1 rest
                    simpa [blockLoop, hres] using this
            | err m st1 =>
                have := ih scope st1 rest
                simpa [blockLoop, hres] using this
            | timeout => right; right; simp [blockLoop, hres]
  · intro n scope st stmts
    rfl

/-- C8 witness: the block conjunct applied to a concrete return
statement followed by a print that is never executed. -/
theorem c8_witness :
    execStatement 2 0 initState (.retStmt (.number 5)) = .ok (.ret (.int32 5)) initState
  ∧ blockLoop 3 0 initState [.retStmt (.number 5), .print [.number 9]]
      = .ok (.ret (.int32 5)) initState :=
  ⟨rfl, c8_return_signal_short_circuits.1 2 0 initState _ _ _ _ rfl⟩

/-- Program from the spec:
`let foo = fn(a) { return fn(b) { return a + b } }`,
`let addTen = foo(10)`, `let addFive = foo(5)`,
`print(addTen(42), addFive(42))`. -/
def curryProg : List Stmt :=
  [ .declaration "foo" (.fnLit ["a"] (.block [.retStmt
      (.fnLit ["b"] (.block [.retStmt
        (.binaryOp .add (.identifier "a") (.identifier "b"))]))])),
    .declaration "addTen" (.call (.identifier "foo") [.number 10]),
    .declaration "addFive" (.call (.identifier "foo") [.number 5]),
    .print [.call (.identifier "addTen") [.number 42],
            .call (.identifier "addFive") [.number 42]] ]

/-- C7: a function literal captures a child of its DEFINING scope at
creation (first conjunct, for every scope and state), and calls
resolve free variables against that captured scope: running the spec's
curry program, `addTen(42)` is 52 while the later closure `addFive`
from `foo(5)` gives `addFive(42)` = 47, unaffected by the first
closure's captured `a`. -/
theorem c7_closures_capture_defining_scope :
    (∀ n scope st params body,
       evalExpr (n + 1) scope st (.fnLit params body)
         = .ok (.fnVal params body st.frames.length)
             { st with frames := st.frames ++ [⟨[], some scope⟩] })
  ∧ resOutput (runProgram 26 curryProg) = some ["52 47"] := by
  constructor
  · intro n scope st params body
    simp [evalExpr, scopeBranch]
  · simp [runProgram, execStatements, execStatement, evalExpr, evalExprList, evalCall,
          blockLoop, curryProg, initState, scopeGet, scopeGetAux, scopeBranch,
          scopeDeclare, frameLookup, frameInsert, frameReplace, declareAll, emptyFrame,
          evalBinaryOp, valueAdd, wrap32, unwrapCallResult, displayValue, displayValues,
          displayFuelDef, joinSep, resOutput]
    rfl

/-- The two statements of the C1 scenario: `1/0` then `print(7)`. -/
def c1Stmts : List Stmt :=
  [ .expression (.binaryOp .div (.number 1) (.number 0)),
    .print [.number 7] ]

/-- C1: fail-fast holds for the top-level statement sequence
(`execute_statements` propagates the divide-by-zero error and the
print never runs), but NOT for a block: evaluating the same two
statements as a block expression succeeds with Null, the error is
silently discarded by the `if let Ok(Value::Return)` pattern, and the
remaining `print(7)` statement IS executed — refuting the claim for
blocks. -/
theorem c1_block_swallows_statement_errors :
    resErrMsg (execStatements 10 0 initState c1Stmts) = some "Division by zero"
  ∧ resOutput (execStatements 10 0 initState c1Stmts) = some []
  ∧ resValue (evalExpr 10 0 initState (.block c1Stmts)) = some .null
  ∧ resOutput (evalExpr 10 0 initState (.block c1Stmts)) = some ["7"] := by
  refine ⟨rfl, rfl, rfl, rfl⟩

/-- Program: `let f = fn(a, b) { return a }` then
`list(1, 2).map(f)` — a callback of arity two. -/
def twoParamMapProg : List Stmt :=
  [ .declaration "f" (.fnLit ["a", "b"] (.block [.retStmt (.identifier "a")])),
    .declaration "r" (.call (.member (.call (.identifier "list") [.number 1, .number 2]) "map")
      [.identifier "f"]),
    .print [.identifier "r"] ]

/-- Program: `let f = fn(x) { return x }` then
`list(1).map(f, 99)` — two arguments to `map`. -/
def extraArgMapProg : List Stmt :=
  [ .declaration "f" (.fnLit ["x"] (.block [.retStmt (.identifier "x")])),
    .print [.call (.member (.call (.identifier "list") [.number 1]) "map")
      [.identifier "f", .number 99]] ]

/-- C3 counterexample: the claim says `map` fails when the callback's
parameter count is not exactly one, or when more than one argument is
passed; on the code a two-parameter callback and an extra argument
both succeed. -/
theorem c3_counterexample_lenient_callbacks :
    resOutput (runProgram 30 twoParamMapProg) = some ["list(1, 2)"]
  ∧ resOutput (runProgram 30 extraArgMapProg) = some ["list(1)"] := by
  constructor <;>
    simp [runProgram, execStatements, execStatement, evalExpr, evalExprList, evalCall,
          blockLoop, twoParamMapProg, extraArgMapProg, initState, scopeGet, scopeGetAux,
          scopeBranch, scopeDeclare, frameLookup, frameInsert, frameReplace, declareAll,
          emptyFrame, callBuiltin, listNewB, allocList, evalMemberVal, listMapB, mapLoop,
          expectCallable, expectList, expectReturn, unwrapCallResult, displayValue,
          displayValues, displayFuelDef, joinSep, resOutput] <;>
    rfl

/-- C3 (amended): `map`, `filter`, `all` and `any` use only their
FIRST argument — extra call arguments are ignored (first conjunct of
each group, for every further argument list) — and require it to be a
function with AT LEAST one parameter, of which only the first is bound
(second conjunct: extra parameters are ignored); a missing argument, a
non-function first argument, or a zero-parameter callback fails. -/
theorem c3_callback_first_argument_at_least_one_param :
    (∀ fuel st this f rest, listMapB fuel st this (f :: rest) = listMapB fuel st this [f])
  ∧ (∀ fuel st this p ps body k rest,
       listMapB fuel st this (.fnVal (p :: ps) body k :: rest)
         = listMapB fuel st this [.fnVal [p] body k])
  ∧ (∀ fuel st this body k rest,
       listMapB (fuel + 1) st this (.fnVal [] body k :: rest)
         = .err "map: function must accept at least 1 parameter" st)
  ∧ (∀ fuel st this, listMapB (fuel + 1) st this [] = .err "map: missing function argument" st)
  ∧ (∀ fuel st this n rest,
       listMapB (fuel + 1) st this (.int32 n :: rest)
         = .err ("map: first argument must be a function, got " ++ toString n) st)
  ∧ (∀ fuel st this f rest, listFilterB fuel st this (f :: rest) = listFilterB fuel st this [f])
  ∧ (∀ fuel st this p ps body k rest,
       listFilterB fuel st this (.fnVal (p :: ps) body k :: rest)
         = listFilterB fuel st this [.fnVal [p] body k])
  ∧ (∀ fuel st this body k rest,
       listFilterB (fuel + 1) st this (.fnVal [] body k :: rest)
         = .err "filter: function must accept at least 1 parameter" st)
  ∧ (∀ fuel st this, listFilterB (fuel + 1) st this []
       = .err "filter: missing function argument" st)
  ∧ (∀ fuel st this n rest,
       listFilterB (fuel + 1) st this (.int32 n :: rest)
         = .err ("filter: first argument must be a function, got " ++ toString n) st)
  ∧ (∀ fuel st this f rest, listAllB fuel st this (f :: rest) = listAllB fuel st this [f])
  ∧ (∀ fuel st this p ps body k rest,
       listAllB fuel st this (.fnVal (p :: ps) body k :: rest)
         = listAllB fuel st this [.fnVal [p] body k])
  ∧ (∀ fuel st this body k rest,
       listAllB (fuel + 1) st this (.fnVal [] body k :: rest)
         = .err "all: function must accept at least 1 parameter" st)
  ∧ (∀ fuel st this, listAllB (fuel + 1) st this [] = .err "all: missing function argument" st)
  ∧ (∀ fuel st this n rest,
       listAllB (fuel + 1) st this (.int32 n :: rest)
         = .err ("all: first argument must be a function, got " ++ toString n) st)
  ∧ (∀ fuel st this f rest, listAnyB fuel st this (f :: rest) = listAnyB fuel st this [f])
  ∧ (∀ fuel st this p ps body k rest,
       listAnyB fuel st this (.fnVal (p :: ps) body k :: rest)
         = listAnyB fuel st this [.fnVal [p] body k])
  ∧ (∀ fuel st this body k rest,
       listAnyB (fuel + 1) st this (.fnVal [] body k :: rest)
         = .err "any: function must accept at least 1 parameter" st)
  ∧ (∀ fuel st this, listAnyB (fuel + 1) st this [] = .err "any: missing function argument" st)
  ∧ (∀ fuel st this n rest,
       listAnyB (fuel + 1) st this (.int32 n :: rest)
         = .err ("any: first argument must be a function, got " ++ toString n) st) := by
  refine ⟨?_, ?_, ?_, ?_, ?_, ?_, ?_, ?_, ?_, ?_, ?_, ?_, ?_, ?_, ?_, ?_, ?_, ?_, ?_, ?_⟩ <;>
    intros <;>
    first
      | rfl
      | (rename_i fuel _ _ f _; cases fuel <;> cases f <;> rfl)
      | (rename_i fuel _ _ _ _ _ _ _; cases fuel <;> rfl)

/-- Program: `let s = set(1)`, `s.add(list(1))`, `print(s.length())` —
adding a non-Hashable value to a set. -/
def setAddListProg : List Stmt :=
  [ .declaration "s" (.call (.identifier "set") [.number 1]),
    .expression (.call (.member (.identifier "s") "add")
      [.call (.identifier "list") [.number 1]]),
    .print [.call (.member (.identifier "s") "length") []] ]

/-- C4 counterexample: the claim says `set.add` with a non-Hashable
value fails with an InvalidKey-class error; on the code
`set(1).add(list(1))` succeeds silently — no error is raised, the add
is a no-op, and the set still has length 1. -/
theorem c4_counterexample_set_add_silent :
    resIsErr (runProgram 30 setAddListProg) = false
  ∧ resOutput (runProgram 30 setAddListProg) = some ["1"] := by
  constructor <;>
    simp [runProgram, execStatements, execStatement, evalExpr, evalExprList, evalCall,
          blockLoop, setAddListProg, initState, scopeGet, scopeGetAux, scopeBranch,
          scopeDeclare, frameLookup, frameInsert, frameReplace, emptyFrame, callBuiltin,
          setNewB, collectHashables, toHashable, hsetInsert, allocSet, storeSet,
          setAddB, setLengthB, listNewB, allocList, evalMemberVal, displayValue,
          displayValues, displayFuelDef, joinSep, resIsErr, resOutput]
  all_goals rfl

/-- C4 (amended): a non-Hashable value IS rejected with the
"invalid key" error by the `set(...)` constructor, by the `dict(...)`
constructor, and by `dict.get`/`dict.set`; but `set.add` (and likewise
`set.remove` and `set.has`) silently returns Null on a non-Hashable
argument, leaving the set untouched, and raises no error. -/
theorem c4_invalid_key_rejected_except_set_mutators :
    (∀ st v rest, isHashableVal v = false → setNewB st (v :: rest) = .err "invalid key" st)
  ∧ (∀ st ref v rest, isHashableVal v = false →
       setAddB st (.setV ref) (v :: rest) = .ok .null st)
  ∧ (∀ st ref v rest, isHashableVal v = false →
       setRemoveB st (.setV ref) (v :: rest) = .ok .null st)
  ∧ (∀ st ref v rest, isHashableVal v = false →
       setHasB st (.setV ref) (v :: rest) = .ok .null st)
  ∧ (∀ st ref v x, isHashableVal v = false →
       ∃ m, dictSetB st (.dictionary ref) [v, x] = .err m st)
  ∧ (∀ st ref v, isHashableVal v = false →
       ∃ m, dictGetB st (.dictionary ref) [v] = .err m st)
  ∧ (∀ st v x rest, isHashableVal v = false →
       ∃ m, dictNewB st (.tuple [v, x] :: rest) = .err m st) := by
  refine ⟨?_, ?_, ?_, ?_, ?_, ?_, ?_⟩
  · intro st v rest h
    cases v <;> simp_all [isHashableVal, setNewB, collectHashables, toHashable]
  · intro st ref v rest h
    cases v <;> simp_all [isHashableVal, setAddB, toHashable]
  · intro st ref v rest h
    cases v <;> simp_all [isHashableVal, setRemoveB, toHashable]
  · intro st ref v rest h
    cases v <;> simp_all [isHashableVal, setHasB, toHashable]
  · intro st ref v x h
    cases v <;>
      simp_all [isHashableVal, dictSetB, expectNArgs, expectDict, expectHashableKey,
                toHashable]
  · intro st ref v h
    cases v <;>
      simp_all [isHashableVal, dictGetB, expectNArgs, expectDict, expectHashableKey,
                toHashable]
  · intro st v x rest h
    cases v <;>
      simp_all [isHashableVal, dictNewB, dictEntries, expectTuple2, expectHashableKey,
                toHashable]

/-- C4 witness: the constructor rejection and the silent `add` applied
to a concrete list value. -/
theorem c4_witness :
    isHashableVal (Value.list 0) = false
  ∧ setNewB initState [.list 0] = .err "invalid key" initState
  ∧ setAddB initState (.setV 0) [.list 0] = .ok .null initState :=
  ⟨rfl, c4_invalid_key_rejected_except_set_mutators.1 initState (.list 0) [] rfl,
        c4_invalid_key_rejected_except_set_mutators.2.1 initState 0 (.list 0) [] rfl⟩

/-- C10 witness: the scalar equivalences applied at concrete values. -/
theorem c10_witness :
    valueEq (.int32 3) (.int32 3) = true ∧ valueEq (.str "x") (.str "y") = false := by
  constructor
  · exact (c10_equality_defined_pairwise_on_scalars.2.1 3 3).mpr rfl
  · have h := (c10_equality_defined_pairwise_on_scalars.2.2.2.1 "x" "y")
    simp at h
    simp [h]

end Sludge
